import Mathlib

/-!
Verification development for the breathelytics respiratory-sound backend.

Shallow embedding of the audio preprocessing pipeline (`pipeline.py`), the
Gemini insight service with its deterministic fallback (`llm_service.py`),
and the module-evaluation behaviour of `utils.py` / `app.py`, together with
theorems settling the specification's testable properties.

Python floats are modelled as exact rationals (`ℚ`); machine float rounding
is outside the scope of these statements.  Stateful code (module-level
caches, repeated artifact loads) is modelled by explicit state passing.
-/

/-! ### Audio duration normalization (`AudioTrimmer`, pipeline.py lines 88-145) -/

/-- Python `int()` applied to a rational: truncation toward zero. -/
def pyInt (x : ℚ) : Int := if 0 ≤ x then ⌊x⌋ else -⌊-x⌋

/-- `target_samples = int(self.target_duration * sample_rate)`
(pipeline.py line 122), as a natural number of samples. -/
def targetSamplesOf (targetDuration : ℚ) (sampleRate : ℕ) : ℕ :=
  (pyInt (targetDuration * (sampleRate : ℚ))).toNat

/-- Body of `AudioTrimmer.transform` for one clip (pipeline.py lines 120-136):
pad with zeros on the right when the clip is shorter than `target_samples`,
otherwise truncate to the first `target_samples` samples. -/
def trimClip (targetDuration : ℚ) (sampleRate : ℕ) (data : List ℚ) : List ℚ :=
  let n := targetSamplesOf targetDuration sampleRate
  if data.length < n then
    data ++ List.replicate (n - data.length) 0
  else
    data.take n

/-- `AudioLoader.transform` for one clip (pipeline.py lines 64-83), reduced to
the part that can fail on the sample rate: the duration computation
`len(y) / sr` divides by the sample rate, and any exception in the loading
block is re-raised as `ValueError("Cannot load audio file ...")`.  A sample
rate of zero therefore raises, with the `ZeroDivisionError` text wrapped. -/
def loadClip (data : List ℚ) (sampleRate : ℕ) :
    Except String (List ℚ × ℕ × ℚ) :=
  if sampleRate = 0 then
    .error "Cannot load audio file: division by zero"
  else
    .ok (data, sampleRate, (data.length : ℚ) / (sampleRate : ℚ))

theorem pyInt_of_nonneg {x : ℚ} (h : 0 ≤ x) : pyInt x = ⌊x⌋ := by
  simp [pyInt, h]

theorem replicate_get?_lt {α : Type} (k j : ℕ) (a : α) (h : j < k) :
    (List.replicate k a).get? j = some a := by
  induction k generalizing j with
  | zero => omega
  | succ m ih =>
    cases j with
    | zero => rfl
    | succ i => simpa [List.replicate] using ih i (by omega)

/-- C1: with sample rate `R > 0` and nonnegative target duration `T`, the
normalized clip has exactly `⌊T*R⌋` samples; the first `min (len s) ⌊T*R⌋`
output samples are the corresponding prefix of the input, every later
position is zero, the empty clip normalizes to all zeros, and a clip of at
least `⌊T*R⌋` samples is truncated to exactly its first `⌊T*R⌋` samples. -/
theorem duration_normalization_spec (T : ℚ) (R : ℕ) (s : List ℚ)
    (hR : 0 < R) (hT : 0 ≤ T) :
    ((trimClip T R s).length : ℤ) = ⌊T * (R : ℚ)⌋ ∧
    (∀ i, i < min s.length (targetSamplesOf T R) →
      (trimClip T R s).get? i = s.get? i) ∧
    (∀ i, s.length ≤ i → i < targetSamplesOf T R →
      (trimClip T R s).get? i = some 0) ∧
    trimClip T R [] = List.replicate (targetSamplesOf T R) 0 ∧
    (targetSamplesOf T R ≤ s.length → trimClip T R s = s.take (targetSamplesOf T R)) := by
  have hTR : (0 : ℚ) ≤ T * (R : ℚ) := mul_nonneg hT (by positivity)
  have hfloor : (0 : ℤ) ≤ ⌊T * (R : ℚ)⌋ := Int.floor_nonneg.mpr hTR
  have hts : (targetSamplesOf T R : ℤ) = ⌊T * (R : ℚ)⌋ := by
    simp [targetSamplesOf, pyInt_of_nonneg hTR, Int.toNat_of_nonneg hfloor]
  set n := targetSamplesOf T R with hn
  refine ⟨?_, ?_, ?_, ?_, ?_⟩
  · rw [← hts]
    norm_cast
    by_cases h : s.length < n
    · simp [trimClip, ← hn, h]
      omega
    · simp [trimClip, ← hn, h]
      omega
  · intro i hi
    by_cases h : s.length < n
    · have hi' : i < s.length := by omega
      simp only [trimClip, ← hn, if_pos h]
      exact List.get?_append hi'
    · have hi' : i < n := by omega
      simp only [trimClip, ← hn, if_neg h]
      exact List.get?_take hi'
  · intro i hle hlt
    have h : s.length < n := by omega
    simp only [trimClip, ← hn, if_pos h]
    rw [List.get?_append_right hle]
    exact replicate_get?_lt _ _ _ (by omega)
  · by_cases h0 : n = 0
    · simp [trimClip, ← hn, h0]
    · simp [trimClip, ← hn, Nat.pos_of_ne_zero h0]
  · intro hle
    have h : ¬ s.length < n := by omega
    simp [trimClip, ← hn, h]

/-- C1 witness: concrete instance with `T = 2`, `R = 3`, an 8-sample clip. -/
theorem duration_normalization_spec_witness :
    (0 < 3 ∧ (0 : ℚ) ≤ 2) ∧
    (((trimClip 2 3 [1, 2, 3, 4, 5, 6, 7, 8]).length : ℤ) = ⌊(2 : ℚ) * ((3 : ℕ) : ℚ)⌋ ∧
    (∀ i, i < min ([1, 2, 3, 4, 5, 6, 7, 8] : List ℚ).length (targetSamplesOf 2 3) →
      (trimClip 2 3 [1, 2, 3, 4, 5, 6, 7, 8]).get? i = ([1, 2, 3, 4, 5, 6, 7, 8] : List ℚ).get? i) ∧
    (∀ i, ([1, 2, 3, 4, 5, 6, 7, 8] : List ℚ).length ≤ i → i < targetSamplesOf 2 3 →
      (trimClip 2 3 [1, 2, 3, 4, 5, 6, 7, 8]).get? i = some 0) ∧
    trimClip 2 3 [] = List.replicate (targetSamplesOf 2 3) 0 ∧
    (targetSamplesOf 2 3 ≤ ([1, 2, 3, 4, 5, 6, 7, 8] : List ℚ).length →
      trimClip 2 3 [1, 2, 3, 4, 5, 6, 7, 8] = ([1, 2, 3, 4, 5, 6, 7, 8] : List ℚ).take (targetSamplesOf 2 3))) :=
  ⟨⟨by decide, by norm_num⟩,
   duration_normalization_spec 2 3 [1, 2, 3, 4, 5, 6, 7, 8] (by decide) (by norm_num)⟩

/-! ### Sample-rate validation (claim C8) -/

/-- C8 counterexample: normalizing (AudioTrimmer) a clip whose sample rate is
0 does not fail at all — with the default target duration the trimmer
computes `target_samples = int(T * 0) = 0` and silently returns an empty
clip, contradicting the claim that it fails with an `InvalidAudioError`. -/
theorem zero_sample_rate_trimmer_empty :
    trimClip (7.8560090702947845 : ℚ) 0 [1, 2, 3] = [] := by
  simp [trimClip, targetSamplesOf, pyInt]

/-- C8 amended: the duration normalizer performs no sample-rate validation:
for any target duration, sample rate 0 makes it silently return an empty
(0-sample) clip; a sample rate of 0 causes a failure only in the loader,
where the duration computation divides by zero and the exception is
re-raised as a `ValueError` ("Cannot load audio file ..."). -/
theorem zero_sample_rate_spec (T : ℚ) (data : List ℚ) :
    trimClip T 0 data = [] ∧
    loadClip data 0 = .error "Cannot load audio file: division by zero" := by
  constructor
  · simp [trimClip, targetSamplesOf, pyInt]
  · rfl

/-! ### Feature statistics record (`FeatureStatisticsCalculator`, pipeline.py lines 213-298) -/

/-- The eight feature families in the order `FeatureExtractor.transform`
inserts them (pipeline.py lines 190-199). -/
def featureFamilies : List String :=
  ["chroma_stft", "mfcc", "mel_spectrogram", "spectral_contrast",
   "spectral_centroid", "spectral_bandwidth", "spectral_rolloff",
   "zero_crossing_rate"]

/-- Default excluded features of `create_respiratory_pipeline`
(pipeline.py line 288). -/
def excludedFeatures : List String := ["mel_spectrogram_min", "chroma_stft_max"]

/-- Per-clip statistics loop of `FeatureStatisticsCalculator.transform`
(pipeline.py lines 248-253): for each extracted feature, in insertion order,
emit the four statistic keys in the order mean, std, max, min.  The numeric
statistic functions are abstract parameters (np.std involves a square root);
the claims settled here concern only the key structure. -/
def featureStatsRecord (features : List (String × List ℚ))
    (statMean statStd statMax statMin : List ℚ → ℚ) : List (String × ℚ) :=
  features.flatMap fun fd =>
    [(fd.1 ++ "_mean", statMean fd.2), (fd.1 ++ "_std", statStd fd.2),
     (fd.1 ++ "_max", statMax fd.2), (fd.1 ++ "_min", statMin fd.2)]

/-- The `df.drop` loop over `excluded_features` (pipeline.py lines 261-264):
every column named by the exclusion list is removed. -/
def excludeColumns (record : List (String × ℚ)) : List (String × ℚ) :=
  record.filter fun kv => !(excludedFeatures.contains kv.1)

/-- Full per-clip aggregation: `FeatureExtractor.transform` produces the
eight families in fixed order (with abstract per-family data), then
`FeatureStatisticsCalculator.transform` computes the statistics record and
drops the excluded columns.  The non-numeric `filename` column, dropped by
`select_dtypes(exclude=['object'])` (pipeline.py line 267), is kept outside
this numeric record. -/
def aggregateClip (extract : String → List ℚ)
    (statMean statStd statMax statMin : List ℚ → ℚ) : List (String × ℚ) :=
  excludeColumns
    (featureStatsRecord (featureFamilies.map fun f => (f, extract f))
      statMean statStd statMax statMin)

/-- The 30 expected feature keys, in order: the 8 families in extraction
order with stats in (mean, std, max, min) order, minus the two excluded
keys. -/
def expectedFeatureKeys : List String :=
  ["chroma_stft_mean", "chroma_stft_std", "chroma_stft_min",
   "mfcc_mean", "mfcc_std", "mfcc_max", "mfcc_min",
   "mel_spectrogram_mean", "mel_spectrogram_std", "mel_spectrogram_max",
   "spectral_contrast_mean", "spectral_contrast_std", "spectral_contrast_max", "spectral_contrast_min",
   "spectral_centroid_mean", "spectral_centroid_std", "spectral_centroid_max", "spectral_centroid_min",
   "spectral_bandwidth_mean", "spectral_bandwidth_std", "spectral_bandwidth_max", "spectral_bandwidth_min",
   "spectral_rolloff_mean", "spectral_rolloff_std", "spectral_rolloff_max", "spectral_rolloff_min",
   "zero_crossing_rate_mean", "zero_crossing_rate_std", "zero_crossing_rate_max", "zero_crossing_rate_min"]

/-- C2: for every clip (arbitrary extracted data and statistic functions)
the aggregated record has exactly the 30 expected keys in the fixed order,
the two excluded keys are never present, and the key sequence is the same
for every clip in a batch (it is independent of the clip's data). -/
theorem feature_record_keys_spec (extract : String → List ℚ)
    (statMean statStd statMax statMin : List ℚ → ℚ) :
    (aggregateClip extract statMean statStd statMax statMin).map Prod.fst
      = expectedFeatureKeys ∧
    expectedFeatureKeys.length = 30 ∧
    ¬ expectedFeatureKeys.contains "mel_spectrogram_min" ∧
    ¬ expectedFeatureKeys.contains "chroma_stft_max" ∧
    (∀ (extract₂ : String → List ℚ) (m₂ s₂ x₂ n₂ : List ℚ → ℚ),
      (aggregateClip extract statMean statStd statMax statMin).map Prod.fst
        = (aggregateClip extract₂ m₂ s₂ x₂ n₂).map Prod.fst) := by
  refine ⟨rfl, rfl, by decide, by decide, fun _ _ _ _ _ => rfl⟩

/-! ### Prediction-code to label mapping (`predict_respiratory_condition`, pipeline.py lines 348-363) -/

/-- The `diagnosis_labels` list (pipeline.py lines 348-351). -/
def diagnosisLabels : List String :=
  ["Asthma", "Bronchiectasis", "Bronchiolitis", "COPD",
   "Healthy", "LRTI", "Pneumonia", "URTI"]

/-- Python list indexing semantics on an integer index: nonnegative indices
index from the front, negative indices index from the back (`xs[-k]` is
`xs[len-k]`), and anything else raises an `IndexError`. -/
def pyListGet (xs : List String) (i : Int) : Except String String :=
  if 0 ≤ i then
    match xs.get? i.toNat with
    | some x => .ok x
    | none => .error "IndexError: list index out of range"
  else
    let j := (xs.length : Int) + i
    if 0 ≤ j then
      match xs.get? j.toNat with
      | some x => .ok x
      | none => .error "IndexError: list index out of range"
    else
      .error "IndexError: list index out of range"

/-- Prediction-code validation and label lookup (pipeline.py lines 353-357):
`if prediction_code >= len(diagnosis_labels): raise ValueError(...)` and
otherwise `diagnosis_labels[prediction_code]` with Python indexing. -/
def mapPredictionCode (code : Int) : Except String String :=
  if (diagnosisLabels.length : Int) ≤ code then
    .error ("Invalid prediction code: " ++ toString code)
  else
    pyListGet diagnosisLabels code

/-- C3 counterexample: the classifier index −1 does not make the prediction
fail — the upper-bound-only check passes and Python negative indexing
silently selects the label URTI. -/
theorem negative_code_selects_label :
    mapPredictionCode (-1) = .ok "URTI" := rfl

/-- C3 amended: indices 0–7 map to the fixed label enumeration and round-trip
back to themselves; index 8 and above fails with the ranged
"Invalid prediction code" error; but a negative index is not caught by the
range check: −8 ≤ i ≤ −1 silently selects the label at position 8 + i
(Python negative indexing), and i < −8 raises a plain IndexError. -/
theorem prediction_code_mapping_spec :
    (∀ i : ℕ, ∀ h : i < 8,
      mapPredictionCode i = .ok (diagnosisLabels.get ⟨i, h⟩) ∧
      diagnosisLabels.indexOf (diagnosisLabels.get ⟨i, h⟩) = i) ∧
    (∀ i : Int, 8 ≤ i →
      mapPredictionCode i = .error ("Invalid prediction code: " ++ toString i)) ∧
    (∀ i : Int, -8 ≤ i → i < 0 →
      ∃ h : (8 + i).toNat < 8,
        mapPredictionCode i = .ok (diagnosisLabels.get ⟨(8 + i).toNat, h⟩)) ∧
    (∀ i : Int, i < -8 →
      mapPredictionCode i = .error "IndexError: list index out of range") := by
  refine ⟨?_, ?_, ?_, ?_⟩
  · intro i h
    interval_cases i <;> exact ⟨rfl, rfl⟩
  · intro i hi
    have : (diagnosisLabels.length : Int) ≤ i := by simp [diagnosisLabels]; omega
    simp [mapPredictionCode, this]
  · intro i h1 h2
    interval_cases i <;> exact ⟨by decide, rfl⟩
  · intro i hi
    have h8 : ¬ (diagnosisLabels.length : Int) ≤ i := by simp [diagnosisLabels]; omega
    have h0 : ¬ (0 : Int) ≤ i := by omega
    have hj : ¬ (0 : Int) ≤ (diagnosisLabels.length : Int) + i := by
      simp [diagnosisLabels]; omega
    simp [mapPredictionCode, pyListGet, h8, h0, hj]

/-- C3 amended witness: one concrete instance per branch — code 3 maps to
COPD and round-trips, code 8 fails with the ranged error, code −2 silently
selects Pneumonia, and code −9 raises an IndexError. -/
theorem prediction_code_mapping_spec_witness :
    (mapPredictionCode (3 : ℕ) = .ok (diagnosisLabels.get ⟨3, by decide⟩) ∧
      diagnosisLabels.indexOf (diagnosisLabels.get ⟨3, by decide⟩) = 3) ∧
    mapPredictionCode 8 = .error ("Invalid prediction code: " ++ toString (8 : Int)) ∧
    (∃ h : ((8 : Int) + -2).toNat < 8,
      mapPredictionCode (-2) = .ok (diagnosisLabels.get ⟨((8 : Int) + -2).toNat, h⟩)) ∧
    mapPredictionCode (-9) = .error "IndexError: list index out of range" := by
  have h := prediction_code_mapping_spec
  exact ⟨h.1 3 (by decide), h.2.1 8 (by decide),
    h.2.2.1 (-2) (by decide) (by decide), h.2.2.2 (-9) (by decide)⟩

/-! ### Model loading and caching (pipeline.py lines 319-338, app.py lines 43-54) -/

/-- Process-wide state relevant to artifact loading: the module-level
`_preprocessing_pipeline` cache of app.py (line 44), plus counters for how
many times `create_respiratory_pipeline` and `joblib.load` have run.
Pipelines are identified by their creation ordinal. -/
structure ServerState where
  pipelineCache : Option ℕ
  pipelineCreateCount : ℕ
  modelLoadCount : ℕ
  deriving Repr, DecidableEq

/-- The process starts with no cached pipeline and nothing loaded. -/
def initialServerState : ServerState :=
  { pipelineCache := none, pipelineCreateCount := 0, modelLoadCount := 0 }

/-- `create_respiratory_pipeline()` (pipeline.py lines 273-298): builds a
fresh pipeline object each time it is called. -/
def createRespiratoryPipeline (s : ServerState) : ℕ × ServerState :=
  (s.pipelineCreateCount,
   { s with pipelineCreateCount := s.pipelineCreateCount + 1 })

/-- `joblib.load(model_path)` (pipeline.py line 331): reads the classifier
artifact from disk. -/
def joblibLoad (s : ServerState) : ServerState :=
  { s with modelLoadCount := s.modelLoadCount + 1 }

/-- State effect of one call of `predict_respiratory_condition`
(pipeline.py lines 319-338): it unconditionally runs `joblib.load` and then
builds a fresh preprocessing pipeline via `create_respiratory_pipeline()`;
no module-level cache is consulted or written. -/
def predictRespiratoryCondition (s : ServerState) : ServerState :=
  ((createRespiratoryPipeline (joblibLoad s))).2

/-- `get_preprocessing_pipeline` (app.py lines 48-54): a bare
check-then-set singleton for the preprocessing pipeline only. -/
def getPreprocessingPipeline (s : ServerState) : ℕ × ServerState :=
  match s.pipelineCache with
  | some p => (p, s)
  | none =>
    let r := createRespiratoryPipeline s
    (r.1, { r.2 with pipelineCache := some r.1 })

/-- `n` successive prediction requests. -/
def predictN : ℕ → ServerState → ServerState
  | 0, s => s
  | n + 1, s => predictN n (predictRespiratoryCondition s)

/-- `n` successive calls of the pipeline accessor. -/
def getPipelineN : ℕ → ServerState → ServerState
  | 0, s => s
  | n + 1, s => getPipelineN n (getPreprocessingPipeline s).2

/-- C4 counterexample: after two prediction requests the classifier artifact
has been loaded twice — the second request performs a further load of the
artifact file, contradicting the claim that it is loaded at most once per
process and reused thereafter. -/
theorem model_reloaded_each_request :
    (predictN 2 initialServerState).modelLoadCount = 2 := rfl

theorem predictN_load_count (n : ℕ) (s : ServerState) :
    (predictN n s).modelLoadCount = s.modelLoadCount + n := by
  induction n generalizing s with
  | zero => rfl
  | succ m ih =>
    simp [predictN, ih, predictRespiratoryCondition, createRespiratoryPipeline,
      joblibLoad]
    omega

theorem getPipelineN_cached (n : ℕ) (s : ServerState) (p : ℕ)
    (h : s.pipelineCache = some p) : getPipelineN n s = s := by
  induction n with
  | zero => rfl
  | succ m ih => simp [getPipelineN, getPreprocessingPipeline, h, ih]

/-- C4 amended: `predict_respiratory_condition` performs no model caching —
after `n` prediction requests the artifact has been loaded exactly `n`
times, a fresh load per call.  Only the API layer's preprocessing-pipeline
accessor is cached (by a bare nullable check): any positive number of
accessor calls creates the pipeline exactly once. -/
theorem model_load_and_pipeline_cache_spec (n : ℕ) (h : 1 ≤ n) :
    (predictN n initialServerState).modelLoadCount = n ∧
    (getPipelineN n initialServerState).pipelineCreateCount = 1 := by
  constructor
  · simpa [initialServerState] using predictN_load_count n initialServerState
  · obtain ⟨m, rfl⟩ : ∃ m, n = m + 1 := ⟨n - 1, by omega⟩
    have h1 : getPipelineN (m + 1) initialServerState
        = getPipelineN m (getPreprocessingPipeline initialServerState).2 := rfl
    rw [h1, getPipelineN_cached m _ 0 rfl]
    rfl

/-- C4 amended witness: three requests load the model three times while the
pipeline accessor has created exactly one pipeline. -/
theorem model_load_and_pipeline_cache_spec_witness :
    1 ≤ 3 ∧
    ((predictN 3 initialServerState).modelLoadCount = 3 ∧
     (getPipelineN 3 initialServerState).pipelineCreateCount = 1) :=
  ⟨by decide, model_load_and_pipeline_cache_spec 3 (by decide)⟩

/-! ### Gemini LLM service (`llm_service.py`) -/

/-- Static per-disease metadata entry (`self.disease_info` values,
llm_service.py lines 36-77). -/
structure DiseaseDetails where
  description : String
  severity : String
  urgency : String
  deriving Repr, DecidableEq

/-- `self.disease_info` (llm_service.py lines 36-77). -/
def diseaseInfo : List (String × DiseaseDetails) :=
  [("Asthma", ⟨"condition where airways narrow and swell, producing extra mucus",
               "Moderate", "moderate"⟩),
   ("Bronchiectasis", ⟨"condition where bronchi are abnormally widened and thickened",
               "Severe", "high"⟩),
   ("Bronchiolitis", ⟨"inflammation of the small airways in the lungs",
               "Mild to Moderate", "moderate"⟩),
   ("COPD", ⟨"chronic obstructive pulmonary disease that is progressive",
               "Severe", "high"⟩),
   ("Healthy", ⟨"normal respiratory function with no detected abnormalities",
               "Normal", "low"⟩),
   ("LRTI", ⟨"lower respiratory tract infection affecting lungs and airways",
               "Moderate", "moderate"⟩),
   ("Pneumonia", ⟨"infection that inflames air sacs in one or both lungs",
               "Severe", "high"⟩),
   ("URTI", ⟨"upper respiratory tract infection affecting nose, throat, and sinuses",
               "Mild", "low"⟩)]

/-- `self.disease_info.get(prediction, {...default...})`
(llm_service.py lines 284-288). -/
def diseaseDetailsFor (prediction : String) : DiseaseDetails :=
  match diseaseInfo.find? (fun kv => kv.1 == prediction) with
  | some kv => kv.2
  | none => ⟨"respiratory condition detected by the system",
             "Requires evaluation", "moderate"⟩

/-- Risk-level rule of `_generate_fallback_insights`
(llm_service.py lines 290-298). -/
def riskLevel (prediction : String) (probability : ℚ) : String :=
  if prediction = "Healthy" then "LOW"
  else if probability > 0.7 ∧ (diseaseDetailsFor prediction).urgency = "high" then "HIGH"
  else if probability > 0.5 then "MODERATE"
  else "LOW"

/-- C5 counterexample: with label Pneumonia and probability exactly 0.50 the
fallback risk level is LOW, not MODERATE as the claim states — the code
compares with strict `probability > 0.5`. -/
theorem risk_level_half_boundary :
    riskLevel "Pneumonia" 0.50 = "LOW" ∧ ¬ ("LOW" = "MODERATE") := by
  have hd : diseaseDetailsFor "Pneumonia"
      = ⟨"infection that inflames air sacs in one or both lungs", "Severe", "high"⟩ := rfl
  have hne : ("Pneumonia" : String) ≠ "Healthy" := by decide
  refine ⟨?_, by decide⟩
  simp only [riskLevel, hd, if_neg hne]
  norm_num

/-- C5 amended: Healthy maps to LOW at every probability; Pneumonia
(urgency high) maps to HIGH at 0.71, MODERATE at 0.70, and — both
thresholds being strict — LOW at 0.50 as well as at 0.49. -/
theorem risk_level_boundary_spec :
    (∀ probability : ℚ, riskLevel "Healthy" probability = "LOW") ∧
    riskLevel "Pneumonia" 0.71 = "HIGH" ∧
    riskLevel "Pneumonia" 0.70 = "MODERATE" ∧
    riskLevel "Pneumonia" 0.50 = "LOW" ∧
    riskLevel "Pneumonia" 0.49 = "LOW" := by
  have hd : diseaseDetailsFor "Pneumonia"
      = ⟨"infection that inflames air sacs in one or both lungs", "Severe", "high"⟩ := rfl
  have hne : ("Pneumonia" : String) ≠ "Healthy" := by decide
  refine ⟨fun probability => by simp [riskLevel], ?_, ?_, ?_, ?_⟩ <;>
    · simp only [riskLevel, hd, if_neg hne]
      norm_num

/-- ML prediction output as consumed by `generate_insights`
(llm_service.py lines 345-353): the three required fields `prediction`,
`probability` and `all_probabilities`. -/
structure PredictionResult where
  prediction : String
  probability : ℚ
  allProbabilities : List (String × ℚ)
  deriving Repr, DecidableEq

/-- Python round-half-even of a rational, as used by `format(x, ".0%")`. -/
def pyRoundHalfEven (x : ℚ) : Int :=
  let f := ⌊x⌋
  let r := x - (f : ℚ)
  if r < 1/2 then f
  else if 1/2 < r then f + 1
  else if f % 2 = 0 then f else f + 1

/-- The `f"{probability:.0%}"` percent formatting used throughout
llm_service.py. -/
def pctFmt (q : ℚ) : String := toString (pyRoundHalfEven (q * 100)) ++ "%"

/-- A JSON value that is either a plain string or a list of strings —
enough to model the `insights` field, which a response provides as a list
but the missing-field synthesis replaces by a placeholder string. -/
inductive JVal where
  | jstr (s : String)
  | jlist (xs : List String)
  deriving Repr, DecidableEq

/-- The `recommendations` value: either a JSON object with the four
optional subcategory lists, or a plain string (as synthesized for a missing
field). -/
inductive RecField where
  | rstr (s : String)
  | rdict (immediate monitoring lifestyle medical : Option (List String))
  deriving Repr, DecidableEq

/-- The dictionary obtained from `json.loads` of the Gemini text, restricted
to the top-level fields the service reads; `none` models an absent key. -/
structure ParsedInsights where
  summary : Option String
  condition_explanation : Option String
  confidence_interpretation : Option String
  insights : Option JVal
  recommendations : Option RecField
  risk_level : Option String
  next_steps : Option String
  disclaimer : Option String
  deriving Repr, DecidableEq

/-- The required-field loop of `_parse_gemini_response` (llm_service.py
lines 246-250): each missing field among summary, condition_explanation,
insights, recommendations is replaced by the placeholder string
`f"{field.replace('_',' ').title()} information not available"`.  The other
top-level fields are not inspected. -/
def fillRequired (p : ParsedInsights) : ParsedInsights :=
  { p with
    summary := some (p.summary.getD "Summary information not available"),
    condition_explanation :=
      some (p.condition_explanation.getD "Condition Explanation information not available"),
    insights := some (p.insights.getD (JVal.jstr "Insights information not available")),
    recommendations :=
      some (p.recommendations.getD (RecField.rstr "Recommendations information not available")) }

/-- Python `needle in haystack` on strings: substring containment. -/
def pyInStr (needle haystack : String) : Bool :=
  decide (List.IsInfix needle.data haystack.data)

/-- The recommendations-subfield loop of `_parse_gemini_response`
(llm_service.py lines 253-257).  When `recommendations` is a dict, each
missing subcategory receives a one-item placeholder list.  When it is a
string (the synthesized placeholder), `subfield not in rec` is a substring
test and the assignment `rec[subfield] = ...` raises a `TypeError`, which
the enclosing handler re-raises as
`ValueError("Failed to parse Gemini response: ...")`. -/
def fixRecommendations (r : RecField) : Except String RecField :=
  match r with
  | .rdict a b c d =>
      .ok (.rdict
        (some (a.getD ["Consult with medical professionals for immediate guidance"]))
        (some (b.getD ["Consult with medical professionals for monitoring guidance"]))
        (some (c.getD ["Consult with medical professionals for lifestyle guidance"]))
        (some (d.getD ["Consult with medical professionals for medical guidance"])))
  | .rstr s =>
      if pyInStr "immediate" s && pyInStr "monitoring" s &&
         pyInStr "lifestyle" s && pyInStr "medical" s then
        .ok (.rstr s)
      else
        .error "Failed to parse Gemini response: TypeError: str object does not support item assignment"

/-- `_parse_gemini_response` (llm_service.py lines 203-269) from the point
where the candidate text has been extracted and `json.loads` attempted: an
`Except.error` input models an envelope/JSON failure (raised as
`ValueError`), an `Except.ok` input carries the parsed dictionary. -/
def parseGeminiResponse (input : Except String ParsedInsights) :
    Except String ParsedInsights :=
  match input with
  | .error e => .error e
  | .ok p =>
    let q := fillRequired p
    match q.recommendations with
    | none => .ok q
    | some r =>
      match fixRecommendations r with
      | .ok r2 => .ok { q with recommendations := some r2 }
      | .error e => .error e

/-- Outcome of one `requests.post` attempt in `_call_gemini_api`
(llm_service.py lines 174-199): a 200 response (carrying the parse-stage
input its body leads to), a non-200 status, a timeout, or another
exception. -/
inductive AttemptOutcome where
  | ok (body : Except String ParsedInsights)
  | status (code : ℕ)
  | timeout
  | exc (msg : String)
  deriving Repr

/-- The retry loop of `_call_gemini_api` (llm_service.py lines 174-201):
up to `max_retries` attempts; a 200 response returns immediately; on the
final attempt a non-200 status raises inside the `try` block and is caught
and re-wrapped by the generic handler ("Gemini API failed: Gemini API
failed with status ..."), a timeout raises "Gemini API timeout after
multiple attempts", and any other exception raises
"Gemini API failed: ...".  With no attempts left it raises
"Gemini API failed after all retries". -/
def callGeminiApi : List AttemptOutcome → Except String (Except String ParsedInsights)
  | [] => .error "Gemini API failed after all retries"
  | [a] =>
    match a with
    | .ok body => .ok body
    | .status code => .error ("Gemini API failed: Gemini API failed with status " ++ toString code)
    | .timeout => .error "Gemini API timeout after multiple attempts"
    | .exc msg => .error ("Gemini API failed: " ++ msg)
  | a :: rest =>
    match a with
    | .ok body => .ok body
    | _ => callGeminiApi rest

/-- The result dictionary of `generate_insights`: the union of the fields of
both paths.  `Option` fields model keys that may be absent on the success
path; the fallback path fills every one of them. -/
structure InsightResult where
  summary : Option String
  condition_explanation : Option String
  confidence_interpretation : Option String
  insights : Option JVal
  recommendations : Option RecField
  risk_level : Option String
  next_steps : Option String
  disclaimer : Option String
  llm_status : String
  processing_time_ms : ℕ
  error_message : Option String
  deriving Repr, DecidableEq

/-- `_generate_fallback_insights` (llm_service.py lines 271-331): the
deterministic fallback record, built only from the prediction label and its
probability.  `processing_time_ms` and `error_message` are added later by
`generate_insights` and default to `0` / `none` here. -/
def generateFallbackInsights (r : PredictionResult) : InsightResult :=
  let details := diseaseDetailsFor r.prediction
  { summary := some ("Analysis indicates possible " ++ r.prediction ++ " with "
      ++ pctFmt r.probability ++ " confidence level"),
    condition_explanation := some (r.prediction ++ " is " ++ details.description),
    confidence_interpretation := some ("Confidence level of " ++ pctFmt r.probability
      ++ " indicates "
      ++ (if r.probability > 0.7 then "strong indication"
          else if r.probability > 0.5 then "moderate possibility"
          else "weak indication")),
    insights := some (.jlist
      ["System detected sound patterns consistent with " ++ r.prediction,
       "Confidence level of " ++ pctFmt r.probability ++ " based on audio feature analysis",
       "This result serves as initial screening, not a definitive medical diagnosis"]),
    recommendations := some (.rdict
      (some ["Consult with a doctor for further evaluation",
             "Document any symptoms you are currently experiencing"])
      (some ["Watch for changes in breathing patterns",
             "Monitor symptoms such as shortness of breath or coughing"])
      (some ["Avoid cigarette smoke and air pollutants",
             "Maintain good hand hygiene and clean environment"])
      (some ["See a doctor immediately if symptoms worsen",
             "Undergo routine examinations as recommended by medical professionals"])),
    risk_level := some (riskLevel r.prediction r.probability),
    next_steps := some "Consult with medical professionals for accurate diagnosis",
    disclaimer := some "This result is an initial screening using AI. Medical consultation is still required for proper diagnosis and treatment.",
    llm_status := "fallback_used",
    processing_time_ms := 0,
    error_message := none }

/-- `generate_insights` (llm_service.py lines 333-378): call the API, parse,
and tag the success result; any exception from either step is absorbed, and
the fallback record is returned with the elapsed time and the original
error text attached.  The required input fields exist by construction of
`PredictionResult`, so the input-validation loop cannot fire. -/
def generateInsights (r : PredictionResult) (attempts : List AttemptOutcome)
    (elapsedMs : ℕ) : InsightResult :=
  match callGeminiApi attempts with
  | .ok body =>
    match parseGeminiResponse body with
    | .ok p =>
      { summary := p.summary, condition_explanation := p.condition_explanation,
        confidence_interpretation := p.confidence_interpretation,
        insights := p.insights, recommendations := p.recommendations,
        risk_level := p.risk_level, next_steps := p.next_steps,
        disclaimer := p.disclaimer, llm_status := "success",
        processing_time_ms := elapsedMs, error_message := none }
    | .error e =>
      { generateFallbackInsights r with
          processing_time_ms := elapsedMs, error_message := some e }
  | .error e =>
    { generateFallbackInsights r with
        processing_time_ms := elapsedMs, error_message := some e }

/-- C6: whenever the external call fails (any error on the final of its
attempts — timeout, non-200, or exception) or the response cannot be parsed
as structured data, `generate_insights` does not raise: it returns a result
tagged `fallback_used` with the original error text preserved as
`error_message`.  Totality of `generateInsights` models "the overall request
does not fail". -/
theorem insight_fallback_on_failure_spec (r : PredictionResult)
    (attempts : List AttemptOutcome) (t : ℕ) (e : String)
    (h : callGeminiApi attempts = .error e ∨
      ∃ body, callGeminiApi attempts = .ok body ∧ parseGeminiResponse body = .error e) :
    (generateInsights r attempts t).llm_status = "fallback_used" ∧
    (generateInsights r attempts t).error_message = some e := by
  rcases h with h | ⟨body, h1, h2⟩
  · simp [generateInsights, h, generateFallbackInsights]
  · simp [generateInsights, h1, h2, generateFallbackInsights]

/-- Sample prediction result used to instantiate the insight theorems. -/
def samplePrediction : PredictionResult :=
  ⟨"Pneumonia", 0.85, [("Pneumonia", 0.85), ("Healthy", 0.15)]⟩

/-- C6 witness: three timeouts in a row yield a fallback-tagged result
preserving the timeout text. -/
theorem insight_fallback_on_failure_spec_witness :
    (callGeminiApi [.timeout, .timeout, .timeout]
        = .error "Gemini API timeout after multiple attempts" ∨
      ∃ body, callGeminiApi [.timeout, .timeout, .timeout] = .ok body ∧
        parseGeminiResponse body = .error "Gemini API timeout after multiple attempts") ∧
    ((generateInsights samplePrediction [.timeout, .timeout, .timeout] 5).llm_status
        = "fallback_used" ∧
     (generateInsights samplePrediction [.timeout, .timeout, .timeout] 5).error_message
        = some "Gemini API timeout after multiple attempts") :=
  ⟨Or.inl rfl,
   insight_fallback_on_failure_spec samplePrediction [.timeout, .timeout, .timeout] 5
     "Gemini API timeout after multiple attempts" (Or.inl rfl)⟩

/-- A well-formed parsed response that simply omits the `risk_level` key
(and the other unchecked keys). -/
def sampleParsedNoRisk : ParsedInsights :=
  { summary := some "The analysis points to pneumonia.",
    condition_explanation := some "Pneumonia is an infection of the lungs.",
    confidence_interpretation := none,
    insights := some (.jlist ["High pneumonia probability detected."]),
    recommendations := some (.rdict (some ["See a doctor."]) (some ["Watch breathing."])
      (some ["Rest."]) (some ["Seek care if worse."])),
    risk_level := none,
    next_steps := none,
    disclaimer := none }

/-- C7 counterexample: a 200 response whose JSON contains the four checked
fields but no `risk_level` is accepted — the result is tagged `success` and
its `risk_level` (like `confidence_interpretation`, `next_steps` and
`disclaimer` here) is absent, not synthesized, contradicting the claim that
every result populates all of the listed fields. -/
theorem success_path_missing_risk_level :
    (generateInsights samplePrediction [.ok (.ok sampleParsedNoRisk)] 7).llm_status
      = "success" ∧
    (generateInsights samplePrediction [.ok (.ok sampleParsedNoRisk)] 7).risk_level
      = none := by
  constructor <;> rfl

/-- C7 amended: the fallback path populates every field (summary,
condition_explanation, confidence_interpretation, insights as a list,
recommendations with all four subcategories, risk_level, next_steps,
disclaimer, status tag); on the success path only the four checked fields
(summary, condition_explanation, insights, recommendations — and, when
recommendations is a mapping, its four subcategories) are guaranteed
present, with placeholders synthesized when missing, while
confidence_interpretation, risk_level, next_steps and disclaimer pass
through unchanged and may be absent; and an entirely missing
`recommendations` field makes the parse raise (string placeholder plus
subfield assignment = TypeError), which diverts the request to the
fallback path rather than yielding a success result. -/
theorem fixRecommendations_placeholder :
    fixRecommendations (.rstr "Recommendations information not available")
      = .error "Failed to parse Gemini response: TypeError: str object does not support item assignment" := by
  rfl

theorem insight_fields_population_spec :
    (∀ r : PredictionResult,
      (generateFallbackInsights r).summary.isSome ∧
      (generateFallbackInsights r).condition_explanation.isSome ∧
      (generateFallbackInsights r).confidence_interpretation.isSome ∧
      (∃ xs, (generateFallbackInsights r).insights = some (.jlist xs)) ∧
      (∃ a b c d, (generateFallbackInsights r).recommendations
          = some (.rdict (some a) (some b) (some c) (some d))) ∧
      (generateFallbackInsights r).risk_level.isSome ∧
      (generateFallbackInsights r).next_steps.isSome ∧
      (generateFallbackInsights r).disclaimer.isSome ∧
      (generateFallbackInsights r).llm_status = "fallback_used") ∧
    (∀ p q : ParsedInsights, parseGeminiResponse (.ok p) = .ok q →
      q.summary.isSome ∧ q.condition_explanation.isSome ∧
      q.insights.isSome ∧ q.recommendations.isSome ∧
      (∀ a b c d, q.recommendations = some (.rdict a b c d) →
        a.isSome ∧ b.isSome ∧ c.isSome ∧ d.isSome) ∧
      q.confidence_interpretation = p.confidence_interpretation ∧
      q.risk_level = p.risk_level ∧ q.next_steps = p.next_steps ∧
      q.disclaimer = p.disclaimer) ∧
    (∀ p : ParsedInsights, p.recommendations = none →
      parseGeminiResponse (.ok p)
        = .error "Failed to parse Gemini response: TypeError: str object does not support item assignment") := by
  refine ⟨?_, ?_, ?_⟩
  · intro r
    refine ⟨rfl, rfl, rfl, ⟨_, rfl⟩, ⟨_, _, _, _, rfl⟩, rfl, rfl, rfl, rfl⟩
  · intro p q h
    cases hrec : p.recommendations with
    | none =>
      have hparse : parseGeminiResponse (.ok p)
          = .error "Failed to parse Gemini response: TypeError: str object does not support item assignment" := by
        simp only [parseGeminiResponse, fillRequired, hrec, Option.getD_none,
          fixRecommendations_placeholder]
      rw [hparse] at h
      simp at h
    | some r =>
      cases r with
      | rdict a b c d =>
        simp [parseGeminiResponse, fillRequired, hrec, fixRecommendations] at h
        subst h
        refine ⟨rfl, rfl, rfl, rfl, ?_, rfl, rfl, rfl, rfl⟩
        intro a' b' c' d' h'
        simp only [Option.some.injEq, RecField.rdict.injEq] at h'
        obtain ⟨ha, hb, hc, hd⟩ := h'
        subst ha; subst hb; subst hc; subst hd
        exact ⟨rfl, rfl, rfl, rfl⟩
      | rstr s =>
        simp only [parseGeminiResponse, fillRequired, hrec, Option.getD_some,
          fixRecommendations] at h
        by_cases hin : (pyInStr "immediate" s && pyInStr "monitoring" s &&
            pyInStr "lifestyle" s && pyInStr "medical" s) = true
        · rw [if_pos hin] at h
          simp at h
          subst h
          simp
        · rw [if_neg hin] at h
          simp at h
  · intro p hrec
    simp only [parseGeminiResponse, fillRequired, hrec, Option.getD_none,
      fixRecommendations_placeholder]

/-- C7 amended witness: concrete instances of the three parts. -/
theorem insight_fields_population_spec_witness :
    ((generateFallbackInsights samplePrediction).risk_level.isSome ∧
      (generateFallbackInsights samplePrediction).llm_status = "fallback_used") ∧
    (parseGeminiResponse (.ok sampleParsedNoRisk)
        = .ok { sampleParsedNoRisk with
            recommendations := some (.rdict (some ["See a doctor."])
              (some ["Watch breathing."]) (some ["Rest."]) (some ["Seek care if worse."])) } →
      ({ sampleParsedNoRisk with
            recommendations := some (.rdict (some ["See a doctor."])
              (some ["Watch breathing."]) (some ["Rest."]) (some ["Seek care if worse."])) } : ParsedInsights).summary.isSome) ∧
    ({ sampleParsedNoRisk with recommendations := none } : ParsedInsights).recommendations = none ∧
    parseGeminiResponse (.ok { sampleParsedNoRisk with recommendations := none })
      = .error "Failed to parse Gemini response: TypeError: str object does not support item assignment" := by
  have h := insight_fields_population_spec
  refine ⟨⟨(h.1 samplePrediction).2.2.2.2.2.1, (h.1 samplePrediction).2.2.2.2.2.2.2.2⟩,
    fun hp => (h.2.1 sampleParsedNoRisk _ hp).1, rfl,
    h.2.2 { sampleParsedNoRisk with recommendations := none } rfl⟩

/-- C10: the fallback generator is deterministic in the prediction label and
probability: two results built from prediction results agreeing on those
two fields (whatever their probability tables), with arbitrary attached
timing and error metadata, agree on every field except `processing_time_ms`
and `error_message`. -/
theorem fallback_determinism_spec (r₁ r₂ : PredictionResult) (t₁ t₂ : ℕ)
    (e₁ e₂ : Option String)
    (hp : r₁.prediction = r₂.prediction) (hq : r₁.probability = r₂.probability) :
    ({ generateFallbackInsights r₁ with
        processing_time_ms := t₁, error_message := e₁ }).summary
      = ({ generateFallbackInsights r₂ with
        processing_time_ms := t₂, error_message := e₂ }).summary ∧
    ({ generateFallbackInsights r₁ with
        processing_time_ms := t₁, error_message := e₁ }).condition_explanation
      = ({ generateFallbackInsights r₂ with
        processing_time_ms := t₂, error_message := e₂ }).condition_explanation ∧
    ({ generateFallbackInsights r₁ with
        processing_time_ms := t₁, error_message := e₁ }).confidence_interpretation
      = ({ generateFallbackInsights r₂ with
        processing_time_ms := t₂, error_message := e₂ }).confidence_interpretation ∧
    ({ generateFallbackInsights r₁ with
        processing_time_ms := t₁, error_message := e₁ }).insights
      = ({ generateFallbackInsights r₂ with
        processing_time_ms := t₂, error_message := e₂ }).insights ∧
    ({ generateFallbackInsights r₁ with
        processing_time_ms := t₁, error_message := e₁ }).recommendations
      = ({ generateFallbackInsights r₂ with
        processing_time_ms := t₂, error_message := e₂ }).recommendations ∧
    ({ generateFallbackInsights r₁ with
        processing_time_ms := t₁, error_message := e₁ }).risk_level
      = ({ generateFallbackInsights r₂ with
        processing_time_ms := t₂, error_message := e₂ }).risk_level ∧
    ({ generateFallbackInsights r₁ with
        processing_time_ms := t₁, error_message := e₁ }).next_steps
      = ({ generateFallbackInsights r₂ with
        processing_time_ms := t₂, error_message := e₂ }).next_steps ∧
    ({ generateFallbackInsights r₁ with
        processing_time_ms := t₁, error_message := e₁ }).disclaimer
      = ({ generateFallbackInsights r₂ with
        processing_time_ms := t₂, error_message := e₂ }).disclaimer ∧
    ({ generateFallbackInsights r₁ with
        processing_time_ms := t₁, error_message := e₁ }).llm_status
      = ({ generateFallbackInsights r₂ with
        processing_time_ms := t₂, error_message := e₂ }).llm_status := by
  simp [generateFallbackInsights, hp, hq]

/-- Same label and probability as `samplePrediction` but a different
probability table, used to show C10 across distinct inputs. -/
def samplePredictionB : PredictionResult := ⟨"Pneumonia", 0.85, []⟩

/-- C10 witness: two prediction results sharing label and probability, with
different metadata, produce identical fallback content. -/
theorem fallback_determinism_spec_witness :
    (samplePrediction.prediction = samplePredictionB.prediction ∧
     samplePrediction.probability = samplePredictionB.probability) ∧
    (({ generateFallbackInsights samplePrediction with
        processing_time_ms := 3, error_message := none }).summary
      = ({ generateFallbackInsights samplePredictionB with
        processing_time_ms := 9, error_message := some "timeout" }).summary ∧
     ({ generateFallbackInsights samplePrediction with
        processing_time_ms := 3, error_message := none }).condition_explanation
      = ({ generateFallbackInsights samplePredictionB with
        processing_time_ms := 9, error_message := some "timeout" }).condition_explanation ∧
     ({ generateFallbackInsights samplePrediction with
        processing_time_ms := 3, error_message := none }).confidence_interpretation
      = ({ generateFallbackInsights samplePredictionB with
        processing_time_ms := 9, error_message := some "timeout" }).confidence_interpretation ∧
     ({ generateFallbackInsights samplePrediction with
        processing_time_ms := 3, error_message := none }).insights
      = ({ generateFallbackInsights samplePredictionB with
        processing_time_ms := 9, error_message := some "timeout" }).insights ∧
     ({ generateFallbackInsights samplePrediction with
        processing_time_ms := 3, error_message := none }).recommendations
      = ({ generateFallbackInsights samplePredictionB with
        processing_time_ms := 9, error_message := some "timeout" }).recommendations ∧
     ({ generateFallbackInsights samplePrediction with
        processing_time_ms := 3, error_message := none }).risk_level
      = ({ generateFallbackInsights samplePredictionB with
        processing_time_ms := 9, error_message := some "timeout" }).risk_level ∧
     ({ generateFallbackInsights samplePrediction with
        processing_time_ms := 3, error_message := none }).next_steps
      = ({ generateFallbackInsights samplePredictionB with
        processing_time_ms := 9, error_message := some "timeout" }).next_steps ∧
     ({ generateFallbackInsights samplePrediction with
        processing_time_ms := 3, error_message := none }).disclaimer
      = ({ generateFallbackInsights samplePredictionB with
        processing_time_ms := 9, error_message := some "timeout" }).disclaimer ∧
     ({ generateFallbackInsights samplePrediction with
        processing_time_ms := 3, error_message := none }).llm_status
      = ({ generateFallbackInsights samplePredictionB with
        processing_time_ms := 9, error_message := some "timeout" }).llm_status) :=
  ⟨⟨rfl, rfl⟩,
   fallback_determinism_spec samplePrediction samplePredictionB 3 9 none (some "timeout")
     rfl rfl⟩

/-! ### Module evaluation of `utils.py` and `app.py` (claim C9) -/

/-- A top-level Python statement, restricted to what module evaluation of
`utils.py` needs: an import binding a list of names, or a `def` whose
parameter/return annotations (recorded by the base name that must resolve)
are evaluated at definition time. -/
inductive PyStmt where
  | importBinds (names : List String)
  | defFun (name : String) (annotations : List String)

/-- Builtin names available without import. -/
def pyBuiltins : List String := ["str", "int", "float", "bool", "bytes", "list", "dict"]

/-- Evaluate a module body: imports extend the namespace; a `def` first
evaluates its annotations — an unresolvable name raises `NameError` and
aborts the module — and then binds the function name. -/
def evalStmts : List String → List PyStmt → Except String (List String)
  | env, [] => .ok env
  | env, .importBinds ns :: rest => evalStmts (env ++ ns) rest
  | env, .defFun n anns :: rest =>
    match anns.find? (fun a => !(env.contains a || pyBuiltins.contains a)) with
    | some a => .error ("NameError: name " ++ a ++ " is not defined")
    | none => evalStmts (env ++ [n]) rest

/-- The module body of `utils.py`: its imports (lines 7-11) and its `def`
statements with the base names of their annotations, in source order.
`get_health_recommendations` (line 179) is annotated `-> List[str]` while
only `Optional` and `Any` are imported from `typing`. -/
def utilsModule : List PyStmt :=
  [.importBinds ["os"], .importBinds ["logging"], .importBinds ["Path"],
   .importBinds ["Optional", "Any"], .importBinds ["FileStorage"],
   .defFun "setup_logging" ["str", "logging"],
   .defFun "validate_audio_file" ["FileStorage", "bool"],
   .defFun "cleanup_temp_files" ["str", "int", "int"],
   .defFun "format_file_size" ["int", "str"],
   .defFun "get_confidence_interpretation" ["float", "str"],
   .defFun "get_health_recommendations" ["str", "float", "List"],
   .defFun "validate_audio_duration" ["str", "float", "bool"],
   .defFun "ensure_directory_exists" ["str", "bool"],
   .defFun "safe_filename" ["str", "str"],
   .defFun "calculate_processing_time_ms" ["float", "float", "float"]]

/-- Importing a module evaluates its body in a fresh namespace. -/
def importModule (body : List PyStmt) : Except String (List String) :=
  evalStmts [] body

/-- Startup of the API server: `app.py` line 24
(`from utils import ...`) executes the `utils` module body at import time;
its failure aborts the import of `app`.  The third-party imports and the
other repository modules imported before it are assumed to succeed and are
elided. -/
def appStartup : Except String Unit :=
  match importModule utilsModule with
  | .error e => .error e
  | .ok _ => .ok ()

/-- C9: evaluating the `utils.py` module body raises `NameError` for `List`
at the definition of `get_health_recommendations` (the annotation is
evaluated at `def` time and `List` was never imported), so importing the
API server module — which imports `utils` at startup — fails as well: the
server process cannot be imported or started. -/
theorem utils_import_name_error_spec :
    importModule utilsModule = .error "NameError: name List is not defined" ∧
    appStartup = .error "NameError: name List is not defined" :=
  ⟨rfl, rfl⟩
